import Mathlib

/-!
Verification of the offline-sync subsystem of the farmer-registration app.

The development shallowly embeds the code of
`mobile/src/services/database.js` (the SQLite-backed local store) and
`mobile/src/services/sync.js` (the sync engine) as pure Lean functions.
SQLite tables become lists of row structures; the asynchronous environment
(network probe result, remote batch endpoint, clock) is passed in
explicitly; a thrown JavaScript exception is an `Except.error` carrying the
error message string.  SQL `REAL` columns are carried opaquely (the sync
layer performs no arithmetic on them), modelled as `Int`; `CURRENT_TIMESTAMP`
is modelled as an explicit `now : Nat` tick.
-/

set_option autoImplicit false

/-- A row of the `farmers` table created by `initDatabase` in
`database.js`.  `TEXT` columns that may be NULL are `Option String`;
`sync_status TEXT DEFAULT 'pending'` is kept as the raw string the code
compares against. -/
structure FarmerRow where
  id : Nat
  temp_id : String
  farmer_id : Option String
  nrc_number : Option String
  first_name : String
  last_name : String
  phone_primary : String
  phone_alternate : Option String
  email : Option String
  date_of_birth : Option String
  gender : Option String
  province : Option String
  district : Option String
  village : Option String
  chiefdom : Option String
  latitude : Option Int
  longitude : Option Int
  sync_status : String
  created_at : Nat
  updated_at : Nat
deriving DecidableEq

/-- A row of the `land_parcels` table (`database.js`, `initDatabase`). -/
structure LandParcelRow where
  id : Nat
  temp_farmer_id : String
  parcel_id : Option String
  total_area : Option Int
  ownership_type : Option String
  land_type : Option String
  soil_type : Option String
  latitude : Option Int
  longitude : Option Int
deriving DecidableEq

/-- A row of the `crops` table (`database.js`, `initDatabase`). -/
structure CropRow where
  id : Nat
  temp_farmer_id : String
  crop_name : Option String
  variety : Option String
  area_allocated : Option Int
  planting_date : Option String
  expected_harvest_date : Option String
  irrigation_method : Option String
  estimated_yield : Option Int
  season : Option String
deriving DecidableEq

/-- The local SQLite database state: the three tables the sync subsystem
touches (the `documents` table is never read or written by sync). -/
structure DB where
  farmers : List FarmerRow
  land_parcels : List LandParcelRow
  crops : List CropRow
deriving DecidableEq

/-- `initDatabase` in `database.js` declares `FOREIGN KEY` clauses on the
child tables but never issues `PRAGMA foreign_keys = ON`; SQLite leaves
foreign-key enforcement OFF by default, so the connection opened by
`SQLite.openDatabase` does not enforce them.  (A sibling implementation in
the repository does run the pragma, but the embedded `database.js` does
not.) -/
def foreignKeysEnabled : Bool := false

/-- `getPendingFarmers` (`database.js`):
`SELECT * FROM farmers WHERE sync_status = 'pending'`. -/
def getPendingFarmers (db : DB) : List FarmerRow :=
  db.farmers.filter (fun r => r.sync_status == "pending")

/-- `getFarmerByTempId` (`database.js`):
`SELECT * FROM farmers WHERE temp_id = ?`, resolving `_array[0]`. -/
def getFarmerByTempId (db : DB) (tempId : String) : Option FarmerRow :=
  (db.farmers.filter (fun r => r.temp_id == tempId)).head?

/-- `updateSyncStatus` (`database.js`):
`UPDATE farmers SET sync_status = ?, farmer_id = ?, updated_at =
CURRENT_TIMESTAMP WHERE temp_id = ?`.  The JS function's trailing
parameter defaults to `null`; callers omitting it pass `none` here.  The
success callback always fires, with `rowsAffected` the number of matched
rows, so the model is total and returns the updated database together with
that count. -/
def updateSyncStatus (db : DB) (tempId status : String)
    (farmerId : Option String) (now : Nat) : DB × Nat :=
  ({ db with
      farmers := db.farmers.map (fun r =>
        if r.temp_id == tempId then
          { r with sync_status := status, farmer_id := farmerId, updated_at := now }
        else r) },
   (db.farmers.filter (fun r => r.temp_id == tempId)).length)

/-- The payload object passed to `insertLandParcel` (everything but the
autoincrement id and the parent reference). -/
structure ParcelData where
  parcel_id : Option String
  total_area : Option Int
  ownership_type : Option String
  land_type : Option String
  soil_type : Option String
  latitude : Option Int
  longitude : Option Int
deriving DecidableEq

/-- The payload object passed to `insertCrop`. -/
structure CropData where
  crop_name : Option String
  variety : Option String
  area_allocated : Option Int
  planting_date : Option String
  expected_harvest_date : Option String
  irrigation_method : Option String
  estimated_yield : Option Int
  season : Option String
deriving DecidableEq

/-- The SQL-level errors the embedded statements can raise. -/
inductive SqlError where
  | foreignKeyViolation
deriving DecidableEq

/-- `insertLandParcel` (`database.js`): a plain `INSERT INTO land_parcels`.
A foreign-key violation is only possible if the connection enforces
foreign keys, which `foreignKeysEnabled` records it does not.  On success
resolves with the fresh insert id (AUTOINCREMENT modelled as successive
ids). -/
def insertLandParcel (db : DB) (tempFarmerId : String) (p : ParcelData) :
    Except SqlError (DB × Nat) :=
  if foreignKeysEnabled && !(db.farmers.any (fun f => f.temp_id == tempFarmerId)) then
    Except.error SqlError.foreignKeyViolation
  else
    let newId := db.land_parcels.length + 1
    let row : LandParcelRow :=
      { id := newId, temp_farmer_id := tempFarmerId, parcel_id := p.parcel_id,
        total_area := p.total_area, ownership_type := p.ownership_type,
        land_type := p.land_type, soil_type := p.soil_type,
        latitude := p.latitude, longitude := p.longitude }
    Except.ok ({ db with land_parcels := db.land_parcels ++ [row] }, newId)

/-- `insertCrop` (`database.js`): a plain `INSERT INTO crops`, same
foreign-key situation as `insertLandParcel`. -/
def insertCrop (db : DB) (tempFarmerId : String) (c : CropData) :
    Except SqlError (DB × Nat) :=
  if foreignKeysEnabled && !(db.farmers.any (fun f => f.temp_id == tempFarmerId)) then
    Except.error SqlError.foreignKeyViolation
  else
    let newId := db.crops.length + 1
    let row : CropRow :=
      { id := newId, temp_farmer_id := tempFarmerId, crop_name := c.crop_name,
        variety := c.variety, area_allocated := c.area_allocated,
        planting_date := c.planting_date,
        expected_harvest_date := c.expected_harvest_date,
        irrigation_method := c.irrigation_method,
        estimated_yield := c.estimated_yield, season := c.season }
    Except.ok ({ db with crops := db.crops ++ [row] }, newId)

/-- `getLandParcels` (`database.js`):
`SELECT * FROM land_parcels WHERE temp_farmer_id = ?`. -/
def getLandParcels (db : DB) (tempFarmerId : String) : List LandParcelRow :=
  db.land_parcels.filter (fun p => p.temp_farmer_id == tempFarmerId)

/-- `getCrops` (`database.js`):
`SELECT * FROM crops WHERE temp_farmer_id = ?`. -/
def getCrops (db : DB) (tempFarmerId : String) : List CropRow :=
  db.crops.filter (fun c => c.temp_farmer_id == tempFarmerId)

/-! ## The sync engine (`mobile/src/services/sync.js`) -/

/-- The object resolved by `expo-network`'s `getNetworkStateAsync`. -/
structure NetworkState where
  isConnected : Bool
  isInternetReachable : Bool
deriving DecidableEq

/-- `checkConnectivity` (`sync.js`): awaits `getNetworkStateAsync` and
returns `networkState.isConnected && networkState.isInternetReachable`.
The code has no `try`/`catch` and sets no timeout of its own, so an error
thrown by the underlying check (modelled as the `Except.error` case of the
probe result) propagates to the caller. -/
def checkConnectivity (networkResult : Except String NetworkState) :
    Except String Bool :=
  match networkResult with
  | Except.error e => Except.error e
  | Except.ok s => Except.ok (s.isConnected && s.isInternetReachable)

/-- GPS coordinate pair as nested in the outgoing payload. -/
structure GpsCoordinates where
  latitude : Option Int
  longitude : Option Int
deriving DecidableEq

/-- `personal_info` block of the outgoing payload (`sync.js`). -/
structure PersonalInfoPayload where
  first_name : String
  last_name : String
  phone_primary : String
  phone_alternate : Option String
  email : Option String
  date_of_birth : Option String
  gender : Option String
deriving DecidableEq

/-- `address` block of the outgoing payload (`sync.js`). -/
structure AddressPayload where
  province : Option String
  district : Option String
  village : Option String
  chiefdom : Option String
  gps_coordinates : GpsCoordinates
deriving DecidableEq

/-- One element of the `land_parcels` array of the outgoing payload. -/
structure ParcelPayload where
  parcel_id : Option String
  total_area : Option Int
  ownership_type : Option String
  land_type : Option String
  soil_type : Option String
  gps_coordinates : GpsCoordinates
deriving DecidableEq

/-- One element of the `current_crops` array of the outgoing payload. -/
structure CropPayload where
  crop_name : Option String
  variety : Option String
  area_allocated : Option Int
  planting_date : Option String
  expected_harvest_date : Option String
  irrigation_method : Option String
  estimated_yield : Option Int
  season : Option String
deriving DecidableEq

/-- One farmer's entry in the batch submitted to the backend, as built by
the `pendingFarmers.map` callback in `syncPendingFarmers`. -/
structure FarmerPayload where
  temp_id : String
  personal_info : PersonalInfoPayload
  address : AddressPayload
  nrc_number : Option String
  land_parcels : List ParcelPayload
  current_crops : List CropPayload
  registration_status : String
deriving DecidableEq

/-- The body of the `pendingFarmers.map` callback in `syncPendingFarmers`
(`sync.js`): builds one farmer's batch entry, nesting the farmer's land
parcels and crops fetched by `getLandParcels` / `getCrops` under its
`temp_id`. -/
def buildFarmerPayload (db : DB) (farmer : FarmerRow) : FarmerPayload :=
  { temp_id := farmer.temp_id,
    personal_info :=
      { first_name := farmer.first_name, last_name := farmer.last_name,
        phone_primary := farmer.phone_primary,
        phone_alternate := farmer.phone_alternate, email := farmer.email,
        date_of_birth := farmer.date_of_birth, gender := farmer.gender },
    address :=
      { province := farmer.province, district := farmer.district,
        village := farmer.village, chiefdom := farmer.chiefdom,
        gps_coordinates :=
          { latitude := farmer.latitude, longitude := farmer.longitude } },
    nrc_number := farmer.nrc_number,
    land_parcels := (getLandParcels db farmer.temp_id).map (fun parcel =>
      { parcel_id := parcel.parcel_id, total_area := parcel.total_area,
        ownership_type := parcel.ownership_type, land_type := parcel.land_type,
        soil_type := parcel.soil_type,
        gps_coordinates :=
          { latitude := parcel.latitude, longitude := parcel.longitude } }),
    current_crops := (getCrops db farmer.temp_id).map (fun crop =>
      { crop_name := crop.crop_name, variety := crop.variety,
        area_allocated := crop.area_allocated,
        planting_date := crop.planting_date,
        expected_harvest_date := crop.expected_harvest_date,
        irrigation_method := crop.irrigation_method,
        estimated_yield := crop.estimated_yield, season := crop.season }),
    registration_status := "pending_verification" }

/-- The `farmersToSync` value of `syncPendingFarmers`: the batch payload,
one entry per pending farmer. -/
def farmersToSync (db : DB) : List FarmerPayload :=
  (getPendingFarmers db).map (buildFarmerPayload db)

/-- One per-record outcome in the backend's `/api/sync/batch` response
(`result.results` in `sync.js`). -/
structure SyncOutcome where
  temp_id : String
  status : String
  farmer_id : Option String
  message : Option String
deriving DecidableEq

/-- The `/api/sync/batch` response body as consumed by `syncPendingFarmers`:
per-record outcomes plus backend-computed aggregate counts; the `errors`
array is passed through opaquely. -/
structure SyncResponse where
  results : List SyncOutcome
  successful : Nat
  failed : Nat
  errors : List String
deriving DecidableEq

/-- The asynchronous environment one call of `syncPendingFarmers` runs in:
the network probe's result, the remote batch endpoint (`syncFarmers` in
`api.js`, which posts the batch and either resolves with a `SyncResponse`
or throws), and the clock supplying `CURRENT_TIMESTAMP`. -/
structure SyncEnv where
  network : Except String NetworkState
  remote : List FarmerPayload → Except String SyncResponse
  now : Nat

/-- The result object `syncPendingFarmers` resolves with.  The early-return
and catch paths carry no `failed` / `errors` fields (undefined in JS),
hence the `Option`s. -/
structure CycleResult where
  success : Bool
  message : String
  synced : Nat
  failed : Option Nat
  errors : Option (List String)
deriving DecidableEq

/-- Observable effect of one `syncPendingFarmers` call: the database after
the call, the resolved result, and the batch handed to `syncFarmers`
(`none` when the remote endpoint was never invoked). -/
structure CycleOutput where
  db : DB
  result : CycleResult
  submitted : Option (List FarmerPayload)
deriving DecidableEq

/-- The `catch` block of `syncPendingFarmers`: resolves with
`success: false` and `error.message || 'Sync failed'` (JS `||` falls back
on the empty string). -/
def catchResult (e : String) : CycleResult :=
  { success := false, message := if e == "" then "Sync failed" else e,
    synced := 0, failed := none, errors := none }

/-- The success message of a completed cycle:
`` `Synced ${result.successful} farmers` `` in `sync.js`. -/
def syncedMessage (n : Nat) : String :=
  s!"Synced {n} farmers"

/-- The `for (const syncResult of result.results)` loop of
`syncPendingFarmers`: outcomes with status `created` or `updated` are
written back via `updateSyncStatus(temp_id, 'synced', farmer_id)`; every
other outcome (in particular `error`) falls through the `if` and touches
nothing. -/
def applyOutcomes (now : Nat) (db : DB) (outcomes : List SyncOutcome) : DB :=
  outcomes.foldl (fun d o =>
    if o.status == "created" || o.status == "updated" then
      (updateSyncStatus d o.temp_id "synced" o.farmer_id now).1
    else d) db

/-- `syncPendingFarmers` (`sync.js`): one sync cycle.  Checks
connectivity, short-circuits on an empty pending set, builds the batch,
posts it once via `syncFarmers`, applies the per-record outcomes, and
returns the aggregate result; the surrounding `try`/`catch` converts any
thrown error into a `success: false` result. -/
def syncPendingFarmers (env : SyncEnv) (db : DB) : CycleOutput :=
  match checkConnectivity env.network with
  | Except.error e => { db := db, result := catchResult e, submitted := none }
  | Except.ok isConnected =>
    if !isConnected then
      { db := db, result := catchResult "No internet connection", submitted := none }
    else
      let pendingFarmers := getPendingFarmers db
      if pendingFarmers.length == 0 then
        { db := db,
          result := { success := true, message := "No farmers to sync",
                      synced := 0, failed := none, errors := none },
          submitted := none }
      else
        let batch := pendingFarmers.map (buildFarmerPayload db)
        match env.remote batch with
        | Except.error e =>
          { db := db, result := catchResult e, submitted := some batch }
        | Except.ok result =>
          let db2 := applyOutcomes env.now db result.results
          { db := db2,
            result := { success := true, message := syncedMessage result.successful,
                        synced := result.successful, failed := some result.failed,
                        errors := some result.errors },
            submitted := some batch }

/-! ## Proof-support definitions and concrete fixtures -/

/-- Row-level view of one iteration of the outcome loop: how a single
outcome transforms a single farmer row (the loop's `updateSyncStatus`
touches exactly the rows whose `temp_id` matches the outcome's). -/
def applyOutcomeToRow (now : Nat) (r : FarmerRow) (o : SyncOutcome) : FarmerRow :=
  if (o.status == "created" || o.status == "updated") && r.temp_id == o.temp_id then
    { r with sync_status := "synced", farmer_id := o.farmer_id, updated_at := now }
  else r

/-- A farmer row with the given identity fields and fixed payload fields,
as the registration screen would create one. -/
def sampleFarmer (id : Nat) (t status : String) (fid : Option String) : FarmerRow :=
  { id := id, temp_id := t, farmer_id := fid, nrc_number := some "123456/78/9",
    first_name := "Chileshe", last_name := "Mwale", phone_primary := "0977000001",
    phone_alternate := none, email := none, date_of_birth := some "1990-01-01",
    gender := some "male", province := some "Lusaka", district := some "Lusaka",
    village := some "Chongwe", chiefdom := some "Nkomeshya",
    latitude := some (-15), longitude := some 28,
    sync_status := status, created_at := 0, updated_at := 0 }

/-- A database holding a single pending farmer. -/
def dbOnePending : DB :=
  { farmers := [sampleFarmer 1 "T1" "pending" none], land_parcels := [], crops := [] }

/-- A database holding three pending farmers A, B, C. -/
def dbThreePending : DB :=
  { farmers := [sampleFarmer 1 "A" "pending" none, sampleFarmer 2 "B" "pending" none,
                sampleFarmer 3 "C" "pending" none],
    land_parcels := [], crops := [] }

/-- A database holding one already-synced farmer and one pending farmer. -/
def dbSyncedPending : DB :=
  { farmers := [sampleFarmer 1 "S1" "synced" (some "ZM-9"),
                sampleFarmer 2 "T2" "pending" none],
    land_parcels := [], crops := [] }

/-- A database holding a single farmer whose sync status is `failed`. -/
def dbOneFailed : DB :=
  { farmers := [sampleFarmer 1 "T9" "failed" none], land_parcels := [], crops := [] }

/-- The empty database. -/
def dbEmpty : DB := { farmers := [], land_parcels := [], crops := [] }

/-- Environment in which the network probe reports a usable connection and
the batch submission throws (transport failure / timeout). -/
def envRemoteThrows : SyncEnv :=
  { network := Except.ok { isConnected := true, isInternetReachable := true },
    remote := fun _ => Except.error "Network request failed",
    now := 5 }

/-- Backend response for a single-record batch: record `T1` created. -/
def respOne : SyncResponse :=
  { results := [{ temp_id := "T1", status := "created",
                  farmer_id := some "ZM-0001", message := none }],
    successful := 1, failed := 0, errors := [] }

/-- Environment whose remote endpoint answers every batch with `respOne`. -/
def envOne : SyncEnv :=
  { network := Except.ok { isConnected := true, isInternetReachable := true },
    remote := fun _ => Except.ok respOne,
    now := 3 }

/-- Backend response for the three-record batch A/B/C: A and C created,
B rejected with a message. -/
def respThree : SyncResponse :=
  { results := [{ temp_id := "A", status := "created",
                  farmer_id := some "ZM-0002", message := none },
                { temp_id := "B", status := "error",
                  farmer_id := none, message := some "Invalid NRC number" },
                { temp_id := "C", status := "created",
                  farmer_id := some "ZM-0003", message := none }],
    successful := 2, failed := 1, errors := ["Invalid NRC number"] }

/-- Environment whose remote endpoint answers every batch with `respThree`. -/
def envThree : SyncEnv :=
  { network := Except.ok { isConnected := true, isInternetReachable := true },
    remote := fun _ => Except.ok respThree,
    now := 7 }

/-- A land-parcel payload as the registration form would submit it. -/
def parcelSample : ParcelData :=
  { parcel_id := some "P-1", total_area := some 4, ownership_type := some "owned",
    land_type := some "arable", soil_type := some "loam",
    latitude := some (-15), longitude := some 28 }

/-- The orphan row `insertLandParcel` persists for `parcelSample` under a
parent identifier that matches no farmer. -/
def orphanParcelRow : LandParcelRow :=
  { id := 1, temp_farmer_id := "TMP-404", parcel_id := some "P-1",
    total_area := some 4, ownership_type := some "owned",
    land_type := some "arable", soil_type := some "loam",
    latitude := some (-15), longitude := some 28 }

/-! ## Structural lemmas -/

theorem farmersToSync_eq (db : DB) :
    farmersToSync db = (getPendingFarmers db).map (buildFarmerPayload db) := rfl

theorem buildFarmerPayload_temp_id (db : DB) (f : FarmerRow) :
    (buildFarmerPayload db f).temp_id = f.temp_id := rfl

theorem mem_getPendingFarmers (db : DB) (r : FarmerRow) :
    r ∈ getPendingFarmers db ↔ r ∈ db.farmers ∧ r.sync_status = "pending" := by
  simp [getPendingFarmers, List.mem_filter]

theorem updateSyncStatus_farmers (db : DB) (t s : String) (fid : Option String)
    (now : Nat) :
    ((updateSyncStatus db t s fid now).1).farmers
      = db.farmers.map (fun r =>
          if r.temp_id == t then
            { r with sync_status := s, farmer_id := fid, updated_at := now }
          else r) := rfl

theorem updateSyncStatus_mem (db : DB) (t s : String) (fid : Option String)
    (now : Nat) (r : FarmerRow)
    (h : r ∈ ((updateSyncStatus db t s fid now).1).farmers)
    (ht : r.temp_id = t) :
    r.sync_status = s ∧ r.farmer_id = fid ∧ r.updated_at = now := by
  rw [updateSyncStatus_farmers] at h
  rcases List.mem_map.mp h with ⟨r0, _, hr0⟩
  by_cases hc : r0.temp_id == t
  · rw [if_pos hc] at hr0
    rw [← hr0]
    exact ⟨rfl, rfl, rfl⟩
  · rw [if_neg hc] at hr0
    subst hr0
    exact absurd (beq_iff_eq.mpr ht) hc

theorem updateSyncStatus_no_match (db : DB) (t s : String) (fid : Option String)
    (now : Nat) (h : ∀ r ∈ db.farmers, r.temp_id ≠ t) :
    updateSyncStatus db t s fid now = (db, 0) := by
  have h1 : db.farmers.map (fun r =>
      if r.temp_id == t then
        { r with sync_status := s, farmer_id := fid, updated_at := now }
      else r) = db.farmers := by
    conv_rhs => rw [← List.map_id db.farmers]
    apply List.map_congr_left
    intro r hmem
    simp [h r hmem]
  have h2 : db.farmers.filter (fun r => r.temp_id == t) = [] := by
    rw [List.filter_eq_nil_iff]
    intro r hmem
    simp [h r hmem]
  unfold updateSyncStatus
  rw [h1, h2]
  rfl

theorem applyOutcomeToRow_temp_id (now : Nat) (r : FarmerRow) (o : SyncOutcome) :
    (applyOutcomeToRow now r o).temp_id = r.temp_id := by
  unfold applyOutcomeToRow
  split <;> rfl

theorem applyOutcomes_farmers (now : Nat) (outcomes : List SyncOutcome) (db : DB) :
    (applyOutcomes now db outcomes).farmers
      = db.farmers.map (fun r => outcomes.foldl (applyOutcomeToRow now) r) := by
  induction outcomes generalizing db with
  | nil =>
    simp [applyOutcomes]
  | cons o os ih =>
    have hstep : applyOutcomes now db (o :: os)
        = applyOutcomes now
            (if o.status == "created" || o.status == "updated" then
              (updateSyncStatus db o.temp_id "synced" o.farmer_id now).1
            else db) os := rfl
    rw [hstep, ih]
    by_cases hs : (o.status == "created" || o.status == "updated") = true
    · rw [if_pos hs, updateSyncStatus_farmers, List.map_map]
      apply List.map_congr_left
      intro r _
      simp only [Function.comp_apply, List.foldl_cons]
      congr 1
      simp only [applyOutcomeToRow, hs, Bool.true_and]
    · rw [if_neg hs]
      apply List.map_congr_left
      intro r _
      simp only [Bool.not_eq_true] at hs
      have ho : applyOutcomeToRow now r o = r := by
        simp [applyOutcomeToRow, hs]
      rw [List.foldl_cons, ho]

theorem foldl_applyOutcomeToRow_frame (now : Nat) (os : List SyncOutcome)
    (r : FarmerRow)
    (h : ∀ o ∈ os, (o.status = "created" ∨ o.status = "updated") →
        o.temp_id ≠ r.temp_id) :
    os.foldl (applyOutcomeToRow now) r = r := by
  induction os with
  | nil => rfl
  | cons o os ih =>
    have h1 : applyOutcomeToRow now r o = r := by
      by_cases hs : o.status = "created" ∨ o.status = "updated"
      · have hne := h o (List.mem_cons_self o os) hs
        simp [applyOutcomeToRow, Ne.symm hne]
      · push_neg at hs
        simp [applyOutcomeToRow, hs.1, hs.2]
    rw [List.foldl_cons, h1]
    exact ih (fun o' ho' => h o' (List.mem_cons_of_mem o ho'))

theorem foldl_applyOutcomeToRow_mark (now : Nat) (os : List SyncOutcome)
    (o : SyncOutcome)
    (hs : o.status = "created" ∨ o.status = "updated") :
    ∀ (r : FarmerRow), o ∈ os → (os.map (fun x => x.temp_id)).Nodup →
      o.temp_id = r.temp_id →
      os.foldl (applyOutcomeToRow now) r
        = { r with sync_status := "synced", farmer_id := o.farmer_id,
                   updated_at := now } := by
  induction os with
  | nil => intro r hmem; cases hmem
  | cons a os ih =>
    intro r hmem hnodup ht
    have hb : (o.status == "created" || o.status == "updated") = true := by
      rcases hs with h' | h' <;> simp [h']
    rcases List.mem_cons.mp hmem with rfl | hmem'
    · have h1 : applyOutcomeToRow now r o
          = { r with sync_status := "synced", farmer_id := o.farmer_id,
                     updated_at := now } := by
        simp [applyOutcomeToRow, hb, ht.symm]
      rw [List.foldl_cons, h1]
      apply foldl_applyOutcomeToRow_frame
      intro o' ho' _
      have hnotin : o.temp_id ∉ os.map (fun x => x.temp_id) :=
        (List.nodup_cons.mp hnodup).1
      intro hEq
      exact hnotin (by
        rw [show o.temp_id = o'.temp_id from by
          rw [hEq]; exact ht]
        exact List.mem_map_of_mem (fun x => x.temp_id) ho')
    · have hanotin : a.temp_id ∉ os.map (fun x => x.temp_id) :=
        (List.nodup_cons.mp hnodup).1
      have hne : a.temp_id ≠ r.temp_id := by
        intro hEq
        apply hanotin
        rw [hEq, ← ht]
        exact List.mem_map_of_mem (fun x => x.temp_id) hmem'
      have h1 : applyOutcomeToRow now r a = r := by
        simp [applyOutcomeToRow, Ne.symm hne]
      rw [List.foldl_cons, h1]
      exact ih r hmem' (List.nodup_cons.mp hnodup).2 ht

/-! ## Scenario lemmas: how one sync cycle unfolds -/

theorem syncPendingFarmers_probe_error (env : SyncEnv) (db : DB) (e : String)
    (h : checkConnectivity env.network = Except.error e) :
    syncPendingFarmers env db
      = { db := db, result := catchResult e, submitted := none } := by
  unfold syncPendingFarmers
  rw [h]

theorem syncPendingFarmers_unreachable (env : SyncEnv) (db : DB)
    (h : checkConnectivity env.network = Except.ok false) :
    syncPendingFarmers env db
      = { db := db, result := catchResult "No internet connection",
          submitted := none } := by
  unfold syncPendingFarmers
  rw [h]
  rfl

theorem syncPendingFarmers_empty (env : SyncEnv) (db : DB)
    (h : checkConnectivity env.network = Except.ok true)
    (h2 : getPendingFarmers db = []) :
    syncPendingFarmers env db
      = { db := db,
          result := { success := true, message := "No farmers to sync",
                      synced := 0, failed := none, errors := none },
          submitted := none } := by
  unfold syncPendingFarmers
  rw [h]
  simp [h2]

theorem syncPendingFarmers_remote_error (env : SyncEnv) (db : DB) (e : String)
    (h : checkConnectivity env.network = Except.ok true)
    (h2 : getPendingFarmers db ≠ [])
    (h3 : env.remote (farmersToSync db) = Except.error e) :
    syncPendingFarmers env db
      = { db := db, result := catchResult e,
          submitted := some (farmersToSync db) } := by
  unfold syncPendingFarmers
  rw [h]
  have h4 : ((getPendingFarmers db).length == 0) = false := by
    simpa [List.length_eq_zero] using h2
  rw [farmersToSync_eq] at h3
  simp [h4, h3]
  exact (farmersToSync_eq db).symm

theorem syncPendingFarmers_remote_ok (env : SyncEnv) (db : DB)
    (resp : SyncResponse)
    (h : checkConnectivity env.network = Except.ok true)
    (h2 : getPendingFarmers db ≠ [])
    (h3 : env.remote (farmersToSync db) = Except.ok resp) :
    syncPendingFarmers env db
      = { db := applyOutcomes env.now db resp.results,
          result := { success := true, message := syncedMessage resp.successful,
                      synced := resp.successful, failed := some resp.failed,
                      errors := some resp.errors },
          submitted := some (farmersToSync db) } := by
  unfold syncPendingFarmers
  rw [h]
  have h4 : ((getPendingFarmers db).length == 0) = false := by
    simpa [List.length_eq_zero] using h2
  rw [farmersToSync_eq] at h3
  simp [h4, h3]
  exact (farmersToSync_eq db).symm

theorem syncPendingFarmers_submitted (env : SyncEnv) (db : DB) :
    (syncPendingFarmers env db).submitted = none
      ∨ (syncPendingFarmers env db).submitted = some (farmersToSync db) := by
  cases hc : checkConnectivity env.network with
  | error e =>
    rw [syncPendingFarmers_probe_error env db e hc]
    exact Or.inl rfl
  | ok c =>
    cases c with
    | false =>
      rw [syncPendingFarmers_unreachable env db hc]
      exact Or.inl rfl
    | true =>
      by_cases hp : getPendingFarmers db = []
      · rw [syncPendingFarmers_empty env db hc hp]
        exact Or.inl rfl
      · cases hr : env.remote (farmersToSync db) with
        | error e =>
          rw [syncPendingFarmers_remote_error env db e hc hp hr]
          exact Or.inr rfl
        | ok resp =>
          rw [syncPendingFarmers_remote_ok env db resp hc hp hr]
          exact Or.inr rfl

/-! ## Claims -/

/-- C1: if the batch submission call (`syncFarmers`) throws or times out
during a sync cycle, no record's sync status or permanent identifier
changes — the database after `syncPendingFarmers` returns is exactly the
database before the call — and the cycle resolves with a structured
`success: false` result instead of propagating the exception. -/
theorem claim1_transport_failure_all_or_nothing (env : SyncEnv) (db : DB)
    (e : String)
    (h1 : checkConnectivity env.network = Except.ok true)
    (h2 : getPendingFarmers db ≠ [])
    (h3 : env.remote (farmersToSync db) = Except.error e) :
    (syncPendingFarmers env db).db = db
    ∧ (syncPendingFarmers env db).result.success = false := by
  rw [syncPendingFarmers_remote_error env db e h1 h2 h3]
  exact ⟨rfl, rfl⟩

/-- C1 witness: a connected network, one pending record, and a remote
endpoint that throws. -/
theorem claim1_witness :
    (syncPendingFarmers envRemoteThrows dbOnePending).db = dbOnePending
    ∧ (syncPendingFarmers envRemoteThrows dbOnePending).result.success = false :=
  claim1_transport_failure_all_or_nothing envRemoteThrows dbOnePending
    "Network request failed" rfl (by decide) rfl

/-- C2 counterexample: three pending records A, B, C with remote outcomes
created / error / created.  The claim says B ends up marked `failed` with
its message retained; in the code the `error` outcome falls through the
apply loop, so B's status is still `pending` (and nothing stored its
message).  The aggregate counts do report 2 synced and 1 failed. -/
theorem claim2_counterexample :
    ((syncPendingFarmers envThree dbThreePending).db.farmers.filter
        (fun r => r.temp_id == "B")).map (fun r => r.sync_status) = ["pending"]
    ∧ (syncPendingFarmers envThree dbThreePending).result.synced = 2
    ∧ (syncPendingFarmers envThree dbThreePending).result.failed = some 1 := by
  exact ⟨rfl, rfl, rfl⟩

/-- C2 (amended): when the submission resolves with a per-record outcome
list (with pairwise-distinct temporary identifiers), every record whose
outcome is `created` or `updated` is marked `synced` with its returned
permanent identifier bound; an `error` outcome is skipped — the record's
stored row is left exactly as it was (no `failed` marker, no message
stored); remaining outcomes are processed regardless; and the aggregate
result reports the counts from the remote response (`successful` /
`failed`) together with its `errors` list. -/
theorem claim2_amended_outcomes_applied (env : SyncEnv) (db : DB)
    (resp : SyncResponse)
    (h1 : checkConnectivity env.network = Except.ok true)
    (h2 : getPendingFarmers db ≠ [])
    (h3 : env.remote (farmersToSync db) = Except.ok resp)
    (h4 : (resp.results.map (fun o => o.temp_id)).Nodup) :
    (syncPendingFarmers env db).result.success = true
    ∧ (syncPendingFarmers env db).result.synced = resp.successful
    ∧ (syncPendingFarmers env db).result.failed = some resp.failed
    ∧ (syncPendingFarmers env db).result.errors = some resp.errors
    ∧ (∀ r ∈ db.farmers, ∀ o ∈ resp.results,
        (o.status = "created" ∨ o.status = "updated") → o.temp_id = r.temp_id →
          { r with sync_status := "synced", farmer_id := o.farmer_id,
                   updated_at := env.now } ∈ (syncPendingFarmers env db).db.farmers)
    ∧ (∀ r ∈ db.farmers,
        (∀ o ∈ resp.results, (o.status = "created" ∨ o.status = "updated") →
            o.temp_id ≠ r.temp_id) →
          r ∈ (syncPendingFarmers env db).db.farmers) := by
  rw [syncPendingFarmers_remote_ok env db resp h1 h2 h3]
  refine ⟨rfl, rfl, rfl, rfl, ?_, ?_⟩
  · intro r hr o ho hs ht
    rw [applyOutcomes_farmers]
    exact List.mem_map.mpr
      ⟨r, hr, foldl_applyOutcomeToRow_mark env.now resp.results o hs r ho h4 ht⟩
  · intro r hr hnone
    rw [applyOutcomes_farmers]
    exact List.mem_map.mpr
      ⟨r, hr, foldl_applyOutcomeToRow_frame env.now resp.results r hnone⟩

/-- C2 witness: the amended claim at the concrete A/B/C scenario. -/
theorem claim2_witness :
    (syncPendingFarmers envThree dbThreePending).result.success = true
    ∧ (syncPendingFarmers envThree dbThreePending).result.synced
        = respThree.successful
    ∧ (syncPendingFarmers envThree dbThreePending).result.failed
        = some respThree.failed
    ∧ (syncPendingFarmers envThree dbThreePending).result.errors
        = some respThree.errors
    ∧ (∀ r ∈ dbThreePending.farmers, ∀ o ∈ respThree.results,
        (o.status = "created" ∨ o.status = "updated") → o.temp_id = r.temp_id →
          { r with sync_status := "synced", farmer_id := o.farmer_id,
                   updated_at := envThree.now }
            ∈ (syncPendingFarmers envThree dbThreePending).db.farmers)
    ∧ (∀ r ∈ dbThreePending.farmers,
        (∀ o ∈ respThree.results, (o.status = "created" ∨ o.status = "updated") →
            o.temp_id ≠ r.temp_id) →
          r ∈ (syncPendingFarmers envThree dbThreePending).db.farmers) :=
  claim2_amended_outcomes_applied envThree dbThreePending respThree
    rfl (by decide) rfl (by decide)

/-- C3 counterexample: the claim says an invocation made while another
cycle is in flight returns a "skipped, already in progress" result and
submits nothing.  `syncPendingFarmers` keeps no in-flight flag at all, so
a re-entrant invocation — which sees the same stored state, the first
cycle not yet having written back — runs a full cycle: here it submits its
own batch and resolves with the ordinary synced result. -/
theorem claim3_counterexample :
    (syncPendingFarmers envOne dbOnePending).submitted
        = some (farmersToSync dbOnePending)
    ∧ (syncPendingFarmers envOne dbOnePending).result.success = true
    ∧ (syncPendingFarmers envOne dbOnePending).result.message
        = syncedMessage 1 :=
  ⟨rfl, rfl, rfl⟩

/-- C3 (amended): `syncPendingFarmers` maintains no in-process
mutual-exclusion flag; its behaviour depends only on the probe result, the
stored records and the remote response, so an invocation made while
another cycle is in flight behaves as a fresh cycle: whenever the probe
reports a connection and the pending set is nonempty it submits its own
batch — it never skips. -/
theorem claim3_amended_no_mutual_exclusion (env : SyncEnv) (db : DB)
    (h1 : checkConnectivity env.network = Except.ok true)
    (h2 : getPendingFarmers db ≠ []) :
    (syncPendingFarmers env db).submitted = some (farmersToSync db) := by
  cases hr : env.remote (farmersToSync db) with
  | error e => rw [syncPendingFarmers_remote_error env db e h1 h2 hr]
  | ok resp => rw [syncPendingFarmers_remote_ok env db resp h1 h2 hr]

/-- C3 witness: the amended claim at a concrete connected, one-record
state. -/
theorem claim3_witness :
    (syncPendingFarmers envOne dbOnePending).submitted
        = some (farmersToSync dbOnePending) :=
  claim3_amended_no_mutual_exclusion envOne dbOnePending rfl (by decide)

/-- C4 counterexample: rebinding a different permanent identifier.  After
`markSynced("T1", "ZM-1")`, a second call `markSynced("T1", "ZM-2")` does
not raise `ConflictError`: it resolves normally (one row affected) and
silently overwrites the stored permanent identifier with `ZM-2`. -/
theorem claim4_counterexample :
    ((updateSyncStatus
        ((updateSyncStatus dbOnePending "T1" "synced" (some "ZM-1") 1).1)
        "T1" "synced" (some "ZM-2") 2).1).farmers.map (fun r => r.farmer_id)
      = [some "ZM-2"]
    ∧ (updateSyncStatus
        ((updateSyncStatus dbOnePending "T1" "synced" (some "ZM-1") 1).1)
        "T1" "synced" (some "ZM-2") 2).2 = 1 :=
  ⟨rfl, rfl⟩

/-- C4 (amended): `updateSyncStatus` overwrites unconditionally.  After
`markSynced(t, p1)`, calling `markSynced(t, p2)` rebinds the record's
permanent identifier to `p2` (no `ConflictError` — the call resolves
normally), and calling `markSynced(t, p1)` again leaves the record with
the same status and identifier values (only the row's `updated_at` is
rewritten); so a single permanent identifier is stored at a time, but it
is not immutable once bound. -/
theorem claim4_amended_rebinding (db : DB) (t p1 p2 : String) (n1 n2 : Nat) :
    (∀ r ∈ ((updateSyncStatus
          ((updateSyncStatus db t "synced" (some p1) n1).1)
          t "synced" (some p2) n2).1).farmers,
        r.temp_id = t → r.sync_status = "synced" ∧ r.farmer_id = some p2)
    ∧ (∀ r ∈ ((updateSyncStatus
          ((updateSyncStatus db t "synced" (some p1) n1).1)
          t "synced" (some p1) n2).1).farmers,
        r.temp_id = t → r.sync_status = "synced" ∧ r.farmer_id = some p1) := by
  constructor
  · intro r hmem ht
    have h := updateSyncStatus_mem _ t "synced" (some p2) n2 r hmem ht
    exact ⟨h.1, h.2.1⟩
  · intro r hmem ht
    have h := updateSyncStatus_mem _ t "synced" (some p1) n2 r hmem ht
    exact ⟨h.1, h.2.1⟩

/-- C4 witness: the amended claim at the concrete one-record database. -/
theorem claim4_witness :
    (∀ r ∈ ((updateSyncStatus
          ((updateSyncStatus dbOnePending "T1" "synced" (some "ZM-1") 1).1)
          "T1" "synced" (some "ZM-2") 2).1).farmers,
        r.temp_id = "T1" → r.sync_status = "synced" ∧ r.farmer_id = some "ZM-2")
    ∧ (∀ r ∈ ((updateSyncStatus
          ((updateSyncStatus dbOnePending "T1" "synced" (some "ZM-1") 1).1)
          "T1" "synced" (some "ZM-1") 2).1).farmers,
        r.temp_id = "T1" → r.sync_status = "synced" ∧ r.farmer_id = some "ZM-1") :=
  claim4_amended_rebinding dbOnePending "T1" "ZM-1" "ZM-2" 1 2

/-- C5: a record whose sync status is `synced` is never selected by
`getPendingFarmers`, never appears in the constructed batch payload, and
never appears in any batch `syncPendingFarmers` actually submits — so
`synced` is terminal with respect to transmission, and a repeated cycle
re-submits only the still-unresolved (pending) set. -/
theorem claim5_synced_never_resubmitted (db : DB) (r : FarmerRow)
    (hr : r ∈ db.farmers) (hs : r.sync_status = "synced")
    (hnodup : (db.farmers.map (fun x => x.temp_id)).Nodup) :
    r ∉ getPendingFarmers db
    ∧ (∀ p ∈ farmersToSync db, p.temp_id ≠ r.temp_id)
    ∧ (∀ (env : SyncEnv) (batch : List FarmerPayload),
        (syncPendingFarmers env db).submitted = some batch →
        ∀ p ∈ batch, p.temp_id ≠ r.temp_id) := by
  have hbatch : ∀ p ∈ farmersToSync db, p.temp_id ≠ r.temp_id := by
    intro p hp hEq
    rw [farmersToSync_eq] at hp
    rcases List.mem_map.mp hp with ⟨f, hf, rfl⟩
    rw [buildFarmerPayload_temp_id] at hEq
    have hfmem := (mem_getPendingFarmers db f).mp hf
    have hfr : f = r := List.inj_on_of_nodup_map hnodup hfmem.1 hr hEq
    rw [hfr, hs] at hfmem
    exact absurd hfmem.2 (by decide)
  refine ⟨?_, hbatch, ?_⟩
  · intro hmem
    have h := (mem_getPendingFarmers db r).mp hmem
    rw [hs] at h
    exact absurd h.2 (by decide)
  · intro env batch hsub p hp
    rcases syncPendingFarmers_submitted env db with hnone | hsome
    · rw [hnone] at hsub
      cases hsub
    · rw [hsome] at hsub
      injection hsub with hbe
      exact hbatch p (hbe ▸ hp)

/-- C5 witness: a database with one synced and one pending record; the
synced one is excluded from collection and every batch. -/
theorem claim5_witness :
    sampleFarmer 1 "S1" "synced" (some "ZM-9") ∉ getPendingFarmers dbSyncedPending
    ∧ (∀ p ∈ farmersToSync dbSyncedPending,
        p.temp_id ≠ (sampleFarmer 1 "S1" "synced" (some "ZM-9")).temp_id)
    ∧ (∀ (env : SyncEnv) (batch : List FarmerPayload),
        (syncPendingFarmers env dbSyncedPending).submitted = some batch →
        ∀ p ∈ batch, p.temp_id ≠ (sampleFarmer 1 "S1" "synced" (some "ZM-9")).temp_id) :=
  claim5_synced_never_resubmitted dbSyncedPending
    (sampleFarmer 1 "S1" "synced" (some "ZM-9")) (by decide) rfl (by decide)

/-- C6 counterexample: a record whose status is `failed` is not collected
and not submitted: `getPendingFarmers` selects only `sync_status =
'pending'`, so for a store holding exactly one `failed` record the pending
set is empty and a connected cycle submits nothing — contradicting the
claim that `failed` records are batched like `pending` ones. -/
theorem claim6_counterexample :
    getPendingFarmers dbOneFailed = []
    ∧ (syncPendingFarmers envOne dbOneFailed).submitted = none :=
  ⟨rfl, rfl⟩

/-- C6 (amended): the set of records collected (and hence submitted) by a
cycle is exactly the records whose status is `pending`; a `failed` record
is not retried — it is excluded from the batch like a `synced` one. -/
theorem claim6_amended_only_pending_collected (db : DB) (r : FarmerRow) :
    r ∈ getPendingFarmers db ↔ r ∈ db.farmers ∧ r.sync_status = "pending" :=
  mem_getPendingFarmers db r

/-- C7: if `getPendingFarmers` returns an empty list (and the connectivity
check passed, which is the only way the collect step is reached), the
cycle resolves with `success: true` and `synced: 0`, leaves the store
untouched, and never invokes the remote submission endpoint. -/
theorem claim7_empty_pending_short_circuit (env : SyncEnv) (db : DB)
    (h1 : checkConnectivity env.network = Except.ok true)
    (h2 : getPendingFarmers db = []) :
    (syncPendingFarmers env db).result.success = true
    ∧ (syncPendingFarmers env db).result.synced = 0
    ∧ (syncPendingFarmers env db).submitted = none
    ∧ (syncPendingFarmers env db).db = db := by
  rw [syncPendingFarmers_empty env db h1 h2]
  exact ⟨rfl, rfl, rfl, rfl⟩

/-- C7 witness: connected network, empty store. -/
theorem claim7_witness :
    (syncPendingFarmers envOne dbEmpty).result.success = true
    ∧ (syncPendingFarmers envOne dbEmpty).result.synced = 0
    ∧ (syncPendingFarmers envOne dbEmpty).submitted = none
    ∧ (syncPendingFarmers envOne dbEmpty).db = dbEmpty :=
  claim7_empty_pending_short_circuit envOne dbEmpty rfl rfl

/-- C8 counterexample: when the underlying network check throws (e.g. an
internal timeout), `checkConnectivity` propagates the exception rather
than returning `false`: the claim that it "returns false instead of
throwing" fails at this input. -/
theorem claim8_counterexample :
    checkConnectivity (Except.error "Network request timed out")
        = Except.error "Network request timed out"
    ∧ checkConnectivity (Except.error "Network request timed out")
        ≠ Except.ok false :=
  ⟨rfl, fun h => Except.noConfusion h⟩

/-- C8 (amended): `checkConnectivity` returns the conjunction of
`isConnected` and `isInternetReachable` when the underlying check
resolves, and propagates the underlying check's exception unchanged when
it throws; it enforces no timeout and no error fallback of its own (the
error is only converted to a `success: false` result one level up, by
`syncPendingFarmers`'s catch). -/
theorem claim8_amended_probe_propagates :
    (∀ s : NetworkState,
        checkConnectivity (Except.ok s)
          = Except.ok (s.isConnected && s.isInternetReachable))
    ∧ (∀ e : String, checkConnectivity (Except.error e) = Except.error e) :=
  ⟨fun _ => rfl, fun _ => rfl⟩

/-- C9: the claim (and the schema's own `FOREIGN KEY` declaration) says
attaching a child to a nonexistent parent raises `ForeignKeyError` and
persists nothing.  Because `database.js` never enables SQLite's
foreign-key pragma, the code at the failing input instead persists the
orphan parcel — under parent identifier `TMP-404` in an empty store — and
resolves with insert id 1. -/
theorem claim9_orphan_insert_persists :
    insertLandParcel dbEmpty "TMP-404" parcelSample
      = Except.ok ({ farmers := [], land_parcels := [orphanParcelRow],
                     crops := [] }, 1) := rfl

/-- C10: a `updateSyncStatus` call always writes `sync_status`,
`farmer_id` and `updated_at` together, so a call whose permanent-id
argument is omitted (null) unconditionally overwrites the stored
`farmer_id` with NULL, erasing any previously bound identifier; and a call
whose `temp_id` matches no row succeeds silently, affecting zero rows and
leaving the store unchanged. -/
theorem claim10_unconditional_overwrite (db : DB) (t status : String)
    (now : Nat) :
    (∀ r ∈ ((updateSyncStatus db t status none now).1).farmers,
        r.temp_id = t →
          r.sync_status = status ∧ r.farmer_id = none ∧ r.updated_at = now)
    ∧ ((∀ r ∈ db.farmers, r.temp_id ≠ t) →
        updateSyncStatus db t status none now = (db, 0)) := by
  constructor
  · intro r hmem ht
    exact updateSyncStatus_mem db t status none now r hmem ht
  · intro h
    exact updateSyncStatus_no_match db t status none now h

/-- C10 witness: updating record `S1` (which holds permanent id `ZM-9`)
without a permanent id erases the binding; updating a `temp_id` that
matches nothing returns the store unchanged with zero rows affected. -/
theorem claim10_witness :
    (∀ r ∈ ((updateSyncStatus dbSyncedPending "S1" "failed" none 9).1).farmers,
        r.temp_id = "S1" →
          r.sync_status = "failed" ∧ r.farmer_id = none ∧ r.updated_at = 9)
    ∧ updateSyncStatus dbOnePending "NOPE" "failed" none 9 = (dbOnePending, 0) :=
  ⟨(claim10_unconditional_overwrite dbSyncedPending "S1" "failed" 9).1,
   (claim10_unconditional_overwrite dbOnePending "NOPE" "failed" 9).2 (by decide)⟩
